import Mathlib

/-
Verification of the `Date` value type (src/main.py): a shallow embedding of
the class and its methods, followed by theorems about construction
validation, the leap-year rule, days-in-month, day-of-year, rendering and
comparison operators.

Modelling conventions:
* Python integers are `Int`; Python `%` with a positive modulus agrees with
  `Int.emod`, which is what `%` means on `Int` in Lean.
* Constructor arguments may be non-integers in Python, so they are modelled
  by `PyVal` (an integer or some other value).  Likewise the comparison
  methods accept arbitrary objects, modelled by `PyObj`.
* `raise TypeError` / `raise ValueError` become `Except.error` with an
  `ErrKind` distinguishing the two kinds and carrying the message.
* Python's `str(n)` for an integer and the `f"{n:02d}"` width-2 zero-padded
  format are embedded by `intStr` and `format02`, built on an explicit
  decimal-digit rendering `natDigits`.
-/

namespace DateSpec

/-- Error kinds raised by the Python code: `TypeError` or `ValueError`,
each carrying its message string. -/
inductive ErrKind where
  | typeError : String → ErrKind
  | valueError : String → ErrKind
deriving DecidableEq, Repr

/-- A Python value passed to the constructor: either an integer or some
non-integer value (identified only by a tag, since the code never inspects
non-integers beyond `isinstance`). -/
inductive PyVal where
  | int : Int → PyVal
  | nonInt : String → PyVal
deriving DecidableEq, Repr

/-- The stored fields of a constructed `Date` object (`self._day`,
`self._month`, `self._year`). -/
structure Date where
  _day : Int
  _month : Int
  _year : Int
deriving DecidableEq, Repr

/-- A Python value passed to a comparison method: either a `Date` instance
or some non-`Date` value (identified only by a tag). -/
inductive PyObj where
  | date : Date → PyObj
  | nonDate : String → PyObj
deriving DecidableEq, Repr

/-- Embedding of `Date.leap_year` (src/main.py lines 118-128):
returns `False` when `year % 4 != 0`, returns `False` when
`year % 100 == 0 and year % 400 != 0`, else `True`. -/
def leap_year (year : Int) : Bool :=
  if year % 4 ≠ 0 then false
  else if year % 100 = 0 ∧ year % 400 ≠ 0 then false
  else true

def invalidMonthMsg : String := "Invalid month"

/-- Embedding of `Date.days_in_month` (src/main.py lines 130-146):
31 for the seven long months, 30 for the four short ones, 29/28 for
February depending on `leap_year`, and `ValueError("Invalid month")`
for anything else. -/
def days_in_month (month year : Int) : Except ErrKind Int :=
  if month = 1 ∨ month = 3 ∨ month = 5 ∨ month = 7 ∨ month = 8 ∨ month = 10 ∨ month = 12 then
    Except.ok 31
  else if month = 4 ∨ month = 6 ∨ month = 9 ∨ month = 11 then
    Except.ok 30
  else if month = 2 then
    Except.ok (if leap_year year then 29 else 28)
  else
    Except.error (ErrKind.valueError invalidMonthMsg)

/-- Decimal digits of a natural number, most significant first: the
embedding of Python's decimal rendering of a non-negative integer. -/
def natDigits (n : Nat) : List Char :=
  if n < 10 then [Nat.digitChar n]
  else natDigits (n / 10) ++ [Nat.digitChar (n % 10)]
decreasing_by omega

/-- Embedding of Python's `str(n)` for an integer `n`. -/
def intStr (n : Int) : String :=
  if n < 0 then String.mk ('-' :: natDigits (-n).toNat)
  else String.mk (natDigits n.toNat)

/-- Embedding of Python's `f"{n:02d}"`: minimum width 2, zero-padded
(the sign counts toward the width, so only `0 ≤ n < 10` gains a pad). -/
def format02 (n : Int) : String :=
  if 0 ≤ n ∧ n < 10 then String.mk ('0' :: natDigits n.toNat)
  else intStr n

def dayTypeMsg : String := "Day cannot be a non-integer number!"

def monthTypeMsg : String := "Month cannot be a non-integer number!"

def yearTypeMsg : String := "Year cannot be a non-integer number!"

def yearValueMsg : String := "There is no such thing as a negative year..."

def monthValueMsg : String := "Only 12 months."

def dayValueMsg (d m y : Int) : String :=
  "Day " ++ intStr d ++ " is not valid for month " ++ intStr m ++ " and year " ++ intStr y ++ "."

/-- Embedding of `Date.__init__` (src/main.py lines 29-43): type checks on
day, month, year in that order, then the `year < 1`, month-range and
day-range checks, storing the fields on success.  (The Python chained
comparison `1 <= day <= self.days_in_month(month, year)` only calls
`days_in_month` after the month-range check passed, where it cannot raise;
evaluating it first, as the `match` here does, is observationally equal.) -/
def Date.init (day month year : PyVal) : Except ErrKind Date :=
  match day with
  | PyVal.nonInt _ => Except.error (ErrKind.typeError dayTypeMsg)
  | PyVal.int d =>
    match month with
    | PyVal.nonInt _ => Except.error (ErrKind.typeError monthTypeMsg)
    | PyVal.int m =>
      match year with
      | PyVal.nonInt _ => Except.error (ErrKind.typeError yearTypeMsg)
      | PyVal.int y =>
        if y < 1 then Except.error (ErrKind.valueError yearValueMsg)
        else if ¬ (1 ≤ m ∧ m ≤ 12) then Except.error (ErrKind.valueError monthValueMsg)
        else
          match days_in_month m y with
          | Except.error e => Except.error e
          | Except.ok dim =>
            if ¬ (1 ≤ d ∧ d ≤ dim) then Except.error (ErrKind.valueError (dayValueMsg d m y))
            else Except.ok ⟨d, m, y⟩

/-- Embedding of `Date.__str__` (src/main.py lines 45-56):
`f"{self._day:02d}/{self._month:02d}/{self._year}"`. -/
def Date.str (self : Date) : String :=
  format02 self._day ++ "/" ++ format02 self._month ++ "/" ++ intStr self._year

/-- Lexicographic order on Python 3-tuples of integers, as used by the
comparison methods. -/
def tripleLt (a b : Int × Int × Int) : Prop :=
  a.1 < b.1 ∨ (a.1 = b.1 ∧ (a.2.1 < b.2.1 ∨ (a.2.1 = b.2.1 ∧ a.2.2 < b.2.2)))

instance (a b : Int × Int × Int) : Decidable (tripleLt a b) := by
  unfold tripleLt; infer_instance

/-- Embedding of `Date.__eq__` (src/main.py lines 58-70): `False` for a
non-`Date` operand, else component-wise tuple equality. -/
def Date.eq (self : Date) (other : PyObj) : Bool :=
  match other with
  | PyObj.nonDate _ => false
  | PyObj.date o =>
    decide ((self._day, self._month, self._year) = (o._day, o._month, o._year))

/-- Embedding of `Date.__lt__` (src/main.py lines 72-84): `False` for a
non-`Date` operand, else `(year, month, day) < (year, month, day)`
lexicographically. -/
def Date.lt (self : Date) (other : PyObj) : Bool :=
  match other with
  | PyObj.nonDate _ => false
  | PyObj.date o =>
    decide (tripleLt (self._year, self._month, self._day) (o._year, o._month, o._day))

/-- Embedding of `Date.__gt__` (src/main.py lines 86-100): `False` for a
non-`Date` operand, else the strict lexicographic reverse of `__lt__`
(Python tuple `>` is exactly `<` with the operands swapped). -/
def Date.gt (self : Date) (other : PyObj) : Bool :=
  match other with
  | PyObj.nonDate _ => false
  | PyObj.date o =>
    decide (tripleLt (o._year, o._month, o._day) (self._year, self._month, self._day))

/-- Embedding of `Date.__le__` (src/main.py lines 102-116): `False` for a
non-`Date` operand, else tuple-less-than or tuple-equal on
`(year, month, day)`. -/
def Date.le (self : Date) (other : PyObj) : Bool :=
  match other with
  | PyObj.nonDate _ => false
  | PyObj.date o =>
    decide (tripleLt (self._year, self._month, self._day) (o._year, o._month, o._day) ∨
      (self._year, self._month, self._day) = (o._year, o._month, o._day))

/-- Embedding of `Date.day_of_year` (src/main.py lines 148-156): the sum of
the first `month - 1` entries of the leap-aware days-per-month table, plus
the day.  (`month - 1` is non-negative for every stored month, so the
Python slice is an ordinary prefix.) -/
def Date.day_of_year (self : Date) : Int :=
  let days_in_months : List Int :=
    [31, if leap_year self._year then 29 else 28, 31, 30, 31, 30, 31, 31, 30, 31, 30, 31]
  (days_in_months.take (self._month - 1).toNat).sum + self._day

/-- Following the spec's words, the standard Gregorian days-per-month
table: 31 except for the short months, with February leap-aware.  Used to
state the claims independently of the branch order of `days_in_month`. -/
def daysInMonthTable (month year : Int) : Int :=
  if month = 2 then (if leap_year year then 29 else 28)
  else if month = 4 ∨ month = 6 ∨ month = 9 ∨ month = 11 then 30
  else 31

/-- Following the spec's words, a two-digit zero-padded decimal rendering
of a (small non-negative) integer. -/
def specPad2 (n : Int) : String :=
  if n < 10 then String.mk ('0' :: natDigits n.toNat)
  else String.mk (natDigits n.toNat)

/-- Following the spec's words, the `DD/MM/YYYY` rendering: two-digit
zero-padded day and month, year in plain decimal with no padding. -/
def specRender (d m y : Int) : String :=
  specPad2 d ++ "/" ++ specPad2 m ++ "/" ++ String.mk (natDigits y.toNat)

/-- Numeric value of a decimal digit character. -/
def digitVal (c : Char) : Nat := c.toNat - 48

/-- Numeric value of a most-significant-first decimal digit string. -/
def digitsVal (l : List Char) : Nat := l.foldl (fun a c => 10 * a + digitVal c) 0

/-- The character list produced by the width-2 zero-padded format for a
non-negative integer. -/
def padList (k : Nat) : List Char :=
  if k < 10 then '0' :: natDigits k else natDigits k

/-! Helper lemmas shared by the claim theorems. -/

theorem days_in_month_ok (m y : Int) (h1 : 1 ≤ m) (h2 : m ≤ 12) :
    days_in_month m y = Except.ok (daysInMonthTable m y) := by
  interval_cases m <;> simp [days_in_month, daysInMonthTable]

theorem days_in_month_err (m y : Int) (h : ¬ (1 ≤ m ∧ m ≤ 12)) :
    days_in_month m y = Except.error (ErrKind.valueError invalidMonthMsg) := by
  unfold days_in_month
  split_ifs <;> first | rfl | omega

theorem daysInMonthTable_bounds (m y : Int) :
    1 ≤ daysInMonthTable m y ∧ daysInMonthTable m y ≤ 31 := by
  unfold daysInMonthTable
  split_ifs <;> omega

/-- Closed form of `Date.init` on three integer inputs: the three range
checks in source order, with the day bound phrased through the Gregorian
table. -/
theorem init_int_eq (d m y : Int) :
    Date.init (PyVal.int d) (PyVal.int m) (PyVal.int y) =
      if y < 1 then Except.error (ErrKind.valueError yearValueMsg)
      else if ¬ (1 ≤ m ∧ m ≤ 12) then Except.error (ErrKind.valueError monthValueMsg)
      else if ¬ (1 ≤ d ∧ d ≤ daysInMonthTable m y) then
        Except.error (ErrKind.valueError (dayValueMsg d m y))
      else Except.ok ⟨d, m, y⟩ := by
  simp only [Date.init]
  by_cases h1 : y < 1
  · simp [h1]
  · by_cases h2 : 1 ≤ m ∧ m ≤ 12
    · simp only [if_neg h1, days_in_month_ok m y h2.1 h2.2]
    · simp [h1, h2]

/-- Characterisation of successful construction: `Date.init` on integer
inputs succeeds exactly on valid triples, and stores them unchanged. -/
theorem init_ok_iff (d m y : Int) (dt : Date) :
    Date.init (PyVal.int d) (PyVal.int m) (PyVal.int y) = Except.ok dt ↔
      (1 ≤ y ∧ 1 ≤ m ∧ m ≤ 12 ∧ 1 ≤ d ∧ d ≤ daysInMonthTable m y ∧ dt = ⟨d, m, y⟩) := by
  rw [init_int_eq]
  by_cases h1 : y < 1
  · rw [if_pos h1]
    exact iff_of_false (by simp) (by omega)
  rw [if_neg h1]
  by_cases h2 : 1 ≤ m ∧ m ≤ 12
  · rw [if_neg (not_not_intro h2)]
    by_cases h3 : 1 ≤ d ∧ d ≤ daysInMonthTable m y
    · rw [if_neg (not_not_intro h3)]
      simp only [Except.ok.injEq]
      constructor
      · intro h
        subst h
        exact ⟨by omega, by omega, by omega, by omega, by omega, rfl⟩
      · intro h
        exact h.2.2.2.2.2.symm
    · rw [if_pos h3]
      exact iff_of_false (by simp) (by omega)
  · rw [if_pos h2]
    exact iff_of_false (by simp) (by omega)

/-- C1: every successfully constructed `Date` satisfies the validity
invariant: year ≥ 1, month in [1,12], and day in
[1, days_in_month(month, year)]; this holds for arbitrary constructor
inputs (integer or not), so no invalid instance can exist after a
successful construction. -/
theorem claim_C1_invariant (dv mv yv : PyVal) (dt : Date)
    (h : Date.init dv mv yv = Except.ok dt) :
    1 ≤ dt._year ∧ 1 ≤ dt._month ∧ dt._month ≤ 12 ∧ 1 ≤ dt._day ∧
      days_in_month dt._month dt._year = Except.ok (daysInMonthTable dt._month dt._year) ∧
      dt._day ≤ daysInMonthTable dt._month dt._year := by
  cases dv with
  | nonInt s => exact absurd h (by simp [Date.init])
  | int d =>
    cases mv with
    | nonInt s => exact absurd h (by simp [Date.init])
    | int m =>
      cases yv with
      | nonInt s => exact absurd h (by simp [Date.init])
      | int y =>
        rw [init_ok_iff] at h
        obtain ⟨hy, hm1, hm2, hd1, hd2, rfl⟩ := h
        exact ⟨hy, hm1, hm2, hd1, days_in_month_ok m y hm1 hm2, hd2⟩

/-- Witness for C1 at the concrete construction `Date(28, 9, 2007)`. -/
theorem claim_C1_witness :
    1 ≤ (Date.mk 28 9 2007)._year ∧ 1 ≤ (Date.mk 28 9 2007)._month ∧
      (Date.mk 28 9 2007)._month ≤ 12 ∧ 1 ≤ (Date.mk 28 9 2007)._day ∧
      days_in_month (Date.mk 28 9 2007)._month (Date.mk 28 9 2007)._year =
        Except.ok (daysInMonthTable (Date.mk 28 9 2007)._month (Date.mk 28 9 2007)._year) ∧
      (Date.mk 28 9 2007)._day ≤ daysInMonthTable (Date.mk 28 9 2007)._month (Date.mk 28 9 2007)._year :=
  claim_C1_invariant (PyVal.int 28) (PyVal.int 9) (PyVal.int 2007) ⟨28, 9, 2007⟩ rfl

/-- C2: for every integer `y` (negative years included), `leap_year y` is
true iff `y` is divisible by 4 and (not divisible by 100 or divisible by
400); in particular 2000 and 2024 are leap years while 1900 and 2023 are
not. -/
theorem claim_C2_leap_year :
    (∀ y : Int, leap_year y = true ↔ (4 ∣ y ∧ (¬ (100 ∣ y) ∨ 400 ∣ y))) ∧
      leap_year 2000 = true ∧ leap_year 1900 = false ∧
      leap_year 2024 = true ∧ leap_year 2023 = false := by
  refine ⟨fun y => ?_, by decide, by decide, by decide, by decide⟩
  unfold leap_year
  split_ifs with h1 h2 <;> simp <;> omega

/-- C3: `days_in_month` returns the Gregorian table value (31 for the
seven long months, 30 for the four short ones, 29/28 for February by
`leap_year`) whenever the month is in [1,12], and a `ValueKind` error
("Invalid month") exactly when the month is outside [1,12]. -/
theorem claim_C3_days_in_month (m y : Int) :
    days_in_month m y =
      if 1 ≤ m ∧ m ≤ 12 then Except.ok (daysInMonthTable m y)
      else Except.error (ErrKind.valueError invalidMonthMsg) := by
  by_cases h : 1 ≤ m ∧ m ≤ 12
  · rw [if_pos h]
    exact days_in_month_ok m y h.1 h.2
  · rw [if_neg h]
    exact days_in_month_err m y h

/-- C4: the constructor checks run in a fixed order — day type, month
type, year type (each a `TypeKind` error naming the field), then year ≥ 1,
month range, day range (each a `ValueKind` error) — and the result is
always the error of the first failing check, so type errors precede all
value-range errors. -/
theorem claim_C4_check_order :
    (∀ (s : String) (mv yv : PyVal), Date.init (PyVal.nonInt s) mv yv =
        Except.error (ErrKind.typeError dayTypeMsg)) ∧
    (∀ (d : Int) (s : String) (yv : PyVal), Date.init (PyVal.int d) (PyVal.nonInt s) yv =
        Except.error (ErrKind.typeError monthTypeMsg)) ∧
    (∀ (d m : Int) (s : String), Date.init (PyVal.int d) (PyVal.int m) (PyVal.nonInt s) =
        Except.error (ErrKind.typeError yearTypeMsg)) ∧
    (∀ d m y : Int, Date.init (PyVal.int d) (PyVal.int m) (PyVal.int y) =
      if y < 1 then Except.error (ErrKind.valueError yearValueMsg)
      else if ¬ (1 ≤ m ∧ m ≤ 12) then Except.error (ErrKind.valueError monthValueMsg)
      else if ¬ (1 ≤ d ∧ d ≤ daysInMonthTable m y) then
        Except.error (ErrKind.valueError (dayValueMsg d m y))
      else Except.ok ⟨d, m, y⟩) :=
  ⟨fun _ _ _ => rfl, fun _ _ _ => rfl, fun _ _ _ => rfl, init_int_eq⟩

/-- C5: for every validly constructed `Date`, `day_of_year` equals the sum
of the leap-aware table over all months strictly before the stored month,
plus the stored day, and lies in [1, 366] in a leap year and [1, 365]
otherwise. -/
theorem claim_C5_day_of_year (d m y : Int) (dt : Date)
    (h : Date.init (PyVal.int d) (PyVal.int m) (PyVal.int y) = Except.ok dt) :
    dt.day_of_year =
      ((List.range (m - 1).toNat).map (fun i => daysInMonthTable (Int.ofNat i + 1) y)).sum + d ∧
      1 ≤ dt.day_of_year ∧ dt.day_of_year ≤ (if leap_year y then 366 else 365) := by
  rw [init_ok_iff] at h
  obtain ⟨hy, hm1, hm2, hd1, hd2, rfl⟩ := h
  cases hl : leap_year y with
  | true =>
    interval_cases m <;>
      simp_all [Date.day_of_year, daysInMonthTable, List.range_succ] <;> omega
  | false =>
    interval_cases m <;>
      simp_all [Date.day_of_year, daysInMonthTable, List.range_succ] <;> omega

/-- Witness for C5 at the four concrete dates named by the spec:
`Date(22,11,2002)` has day-of-year 326, `Date(1,1,2000)` has 1,
`Date(31,12,2000)` has 366, and `Date(31,12,2001)` has 365. -/
theorem claim_C5_witness :
    Date.day_of_year ⟨22, 11, 2002⟩ = 326 ∧ Date.day_of_year ⟨1, 1, 2000⟩ = 1 ∧
      Date.day_of_year ⟨31, 12, 2000⟩ = 366 ∧ Date.day_of_year ⟨31, 12, 2001⟩ = 365 := by
  have h1 := claim_C5_day_of_year 22 11 2002 ⟨22, 11, 2002⟩ rfl
  have h2 := claim_C5_day_of_year 1 1 2000 ⟨1, 1, 2000⟩ rfl
  have h3 := claim_C5_day_of_year 31 12 2000 ⟨31, 12, 2000⟩ rfl
  have h4 := claim_C5_day_of_year 31 12 2001 ⟨31, 12, 2001⟩ rfl
  exact ⟨by rw [h1.1]; decide, by rw [h2.1]; decide, by rw [h3.1]; decide, by rw [h4.1]; decide⟩

/-- C7: on `Date` operands the comparison methods form a strict total
order keyed lexicographically on (year, month, day): for all dates `a`,
`b`, `c`, exactly one of `a < b`, `a == b`, `a > b` holds, and `<` is
transitive.  This holds for arbitrary field values, hence in particular
for all validly constructed dates. -/
theorem claim_C7_strict_order (a b c : Date) :
    (a.lt (PyObj.date b) = true ∨ a.eq (PyObj.date b) = true ∨ a.gt (PyObj.date b) = true) ∧
    ¬ (a.lt (PyObj.date b) = true ∧ a.eq (PyObj.date b) = true) ∧
    ¬ (a.lt (PyObj.date b) = true ∧ a.gt (PyObj.date b) = true) ∧
    ¬ (a.eq (PyObj.date b) = true ∧ a.gt (PyObj.date b) = true) ∧
    (a.lt (PyObj.date b) = true → b.lt (PyObj.date c) = true → a.lt (PyObj.date c) = true) := by
  obtain ⟨a1, a2, a3⟩ := a
  obtain ⟨b1, b2, b3⟩ := b
  obtain ⟨c1, c2, c3⟩ := c
  simp only [Date.lt, Date.eq, Date.gt, tripleLt, decide_eq_true_eq, Prod.mk.injEq]
  omega

/-- Witness for C7: transitivity applied at three concrete dates,
`Date(1,1,2000) < Date(2,2,2000) < Date(5,3,2001)`. -/
theorem claim_C7_witness :
    Date.lt ⟨1, 1, 2000⟩ (PyObj.date ⟨5, 3, 2001⟩) = true := by
  have h := claim_C7_strict_order ⟨1, 1, 2000⟩ ⟨2, 2, 2000⟩ ⟨5, 3, 2001⟩
  exact h.2.2.2.2 (by decide) (by decide)

/-- C8: for every `Date` `a` and every operand `b` (a `Date` or not),
`a <= b` returns exactly `a < b or a == b`; the three operators agree on
every input. -/
theorem claim_C8_le_consistent (a : Date) (b : PyObj) :
    a.le b = (a.lt b || a.eq b) := by
  cases b with
  | nonDate s => rfl
  | date o =>
    obtain ⟨a1, a2, a3⟩ := a
    obtain ⟨o1, o2, o3⟩ := o
    simp only [Date.le, Date.lt, Date.eq, tripleLt, Prod.mk.injEq]
    rw [Bool.eq_iff_iff]
    simp only [Bool.or_eq_true, decide_eq_true_eq]
    omega

/-- C9: comparing any `Date` against a non-`Date` operand returns `False`
for all four operators `==`, `<`, `>`, `<=` — no error and never `True`. -/
theorem claim_C9_non_date (a : Date) (s : String) :
    a.eq (PyObj.nonDate s) = false ∧ a.lt (PyObj.nonDate s) = false ∧
      a.gt (PyObj.nonDate s) = false ∧ a.le (PyObj.nonDate s) = false :=
  ⟨rfl, rfl, rfl, rfl⟩

/-! Lemmas about the decimal rendering, feeding C6 and C10. -/

theorem digitVal_digitChar (k : Nat) (h : k < 10) : digitVal (Nat.digitChar k) = k := by
  interval_cases k <;> decide

theorem digitsVal_append_singleton (l : List Char) (x : Char) :
    digitsVal (l ++ [x]) = 10 * digitsVal l + digitVal x := by
  simp [digitsVal, List.foldl_append]

theorem digitsVal_natDigits (n : Nat) : digitsVal (natDigits n) = n := by
  induction n using Nat.strong_induction_on with
  | _ n ih =>
    rw [natDigits]
    split_ifs with h
    · simp [digitsVal, digitVal_digitChar n h]
    · rw [digitsVal_append_singleton, ih (n / 10) (by omega),
        digitVal_digitChar (n % 10) (by omega)]
      omega

theorem natDigits_inj (a b : Nat) (h : natDigits a = natDigits b) : a = b := by
  have h2 := congrArg digitsVal h
  rwa [digitsVal_natDigits, digitsVal_natDigits] at h2

theorem digitsVal_cons_zero (l : List Char) : digitsVal ('0' :: l) = digitsVal l := by
  simp [digitsVal, digitVal]

theorem digitsVal_padList (k : Nat) : digitsVal (padList k) = k := by
  unfold padList
  split_ifs with h
  · rw [digitsVal_cons_zero, digitsVal_natDigits]
  · exact digitsVal_natDigits k

theorem padList_inj (a b : Nat) (h : padList a = padList b) : a = b := by
  have h2 := congrArg digitsVal h
  rwa [digitsVal_padList, digitsVal_padList] at h2

theorem natDigits_len_one (n : Nat) (h : n < 10) : (natDigits n).length = 1 := by
  rw [natDigits, if_pos h]
  rfl

theorem natDigits_len_two (n : Nat) (h1 : 10 ≤ n) (h2 : n < 100) : (natDigits n).length = 2 := by
  rw [natDigits, if_neg (by omega)]
  rw [List.length_append, natDigits_len_one (n / 10) (by omega)]
  rfl

theorem padList_len_two (k : Nat) (h : k ≤ 31) : (padList k).length = 2 := by
  unfold padList
  split_ifs with h2
  · simp [natDigits_len_one k h2]
  · exact natDigits_len_two k (by omega) (by omega)

theorem format02_pos (n : Int) (h : 1 ≤ n) : format02 n = String.mk (padList n.toNat) := by
  unfold format02 padList intStr
  split_ifs with h1 h2 h3 <;> first | rfl | omega

theorem intStr_nonneg (n : Int) (h : 0 ≤ n) : intStr n = String.mk (natDigits n.toNat) := by
  unfold intStr
  rw [if_neg (by omega)]

theorem specPad2_pos (n : Int) (h : 1 ≤ n) : specPad2 n = String.mk (padList n.toNat) := by
  unfold specPad2 padList
  split_ifs with h1 h2 <;> first | rfl | omega

/-- Renders a date whose fields are positive as one flat character list. -/
theorem str_chars (d m y : Int) (hd : 1 ≤ d) (hm : 1 ≤ m) (hy : 1 ≤ y) :
    Date.str ⟨d, m, y⟩ =
      String.mk (padList d.toNat ++ '/' :: (padList m.toNat ++ '/' :: natDigits y.toNat)) := by
  show format02 d ++ "/" ++ format02 m ++ "/" ++ intStr y = _
  rw [format02_pos d hd, format02_pos m hm, intStr_nonneg y (by omega)]
  show String.mk ((((padList d.toNat ++ ['/']) ++ padList m.toNat) ++ ['/']) ++ natDigits y.toNat) =
    String.mk (padList d.toNat ++ '/' :: (padList m.toNat ++ '/' :: natDigits y.toNat))
  simp [List.append_assoc]

/-- C6: the rendering of every validly constructed `Date(d, m, y)` is
exactly the spec's `DD/MM/YYYY` string: two-digit zero-padded day, slash,
two-digit zero-padded month, slash, year in plain decimal with no
padding. -/
theorem claim_C6_render (d m y : Int) (dt : Date)
    (h : Date.init (PyVal.int d) (PyVal.int m) (PyVal.int y) = Except.ok dt) :
    dt.str = specRender d m y := by
  rw [init_ok_iff] at h
  obtain ⟨hy, hm1, hm2, hd1, hd2, rfl⟩ := h
  show format02 d ++ "/" ++ format02 m ++ "/" ++ intStr y = specRender d m y
  unfold specRender
  rw [format02_pos d hd1, format02_pos m hm1, intStr_nonneg y (by omega),
    specPad2_pos d hd1, specPad2_pos m hm1]

/-- Witness for C6 at the concrete construction `Date(3, 1, 2000)`. -/
theorem claim_C6_witness : Date.str ⟨3, 1, 2000⟩ = specRender 3 1 2000 :=
  claim_C6_render 3 1 2000 ⟨3, 1, 2000⟩ rfl

/-- C10: the rendering is injective on valid dates — two validly
constructed dates are equal (by `__eq__`) iff their rendered strings are
equal, so the `DD/MM/YYYY` form uniquely identifies a valid date. -/
theorem claim_C10_str_inj (d1 m1 y1 d2 m2 y2 : Int) (a b : Date)
    (ha : Date.init (PyVal.int d1) (PyVal.int m1) (PyVal.int y1) = Except.ok a)
    (hb : Date.init (PyVal.int d2) (PyVal.int m2) (PyVal.int y2) = Except.ok b) :
    a.eq (PyObj.date b) = true ↔ a.str = b.str := by
  rw [init_ok_iff] at ha hb
  obtain ⟨hy1, hm11, hm12, hd11, hd12, rfl⟩ := ha
  obtain ⟨hy2, hm21, hm22, hd21, hd22, rfl⟩ := hb
  have tb1 := daysInMonthTable_bounds m1 y1
  have tb2 := daysInMonthTable_bounds m2 y2
  constructor
  · intro h
    simp only [Date.eq, decide_eq_true_eq, Prod.mk.injEq] at h
    obtain ⟨rfl, rfl, rfl⟩ := h
    rfl
  · intro h
    rw [str_chars d1 m1 y1 hd11 hm11 hy1, str_chars d2 m2 y2 hd21 hm21 hy2] at h
    have hlend : (padList d1.toNat).length = (padList d2.toNat).length := by
      rw [padList_len_two d1.toNat (by omega), padList_len_two d2.toNat (by omega)]
    obtain ⟨hdp, hrest⟩ := List.append_inj (congrArg String.data h) hlend
    simp only [List.cons.injEq, true_and] at hrest
    have hlenm : (padList m1.toNat).length = (padList m2.toNat).length := by
      rw [padList_len_two m1.toNat (by omega), padList_len_two m2.toNat (by omega)]
    obtain ⟨hmp, hrest2⟩ := List.append_inj hrest hlenm
    simp only [List.cons.injEq, true_and] at hrest2
    have hd : d1 = d2 := by have h2 := padList_inj _ _ hdp; omega
    have hm : m1 = m2 := by have h2 := padList_inj _ _ hmp; omega
    have hy : y1 = y2 := by have h2 := natDigits_inj _ _ hrest2; omega
    subst hd
    subst hm
    subst hy
    simp [Date.eq]

/-- Witness for C10 at the concrete construction `Date(28, 9, 2007)`
compared with itself. -/
theorem claim_C10_witness :
    Date.eq ⟨28, 9, 2007⟩ (PyObj.date ⟨28, 9, 2007⟩) = true ↔
      Date.str ⟨28, 9, 2007⟩ = Date.str ⟨28, 9, 2007⟩ :=
  claim_C10_str_inj 28 9 2007 28 9 2007 ⟨28, 9, 2007⟩ ⟨28, 9, 2007⟩ rfl rfl

end DateSpec
